import Mathlib

/-!
Shallow embedding of the FMC API client core (`src/fmc_mcp/client.py`):
session credential state, authentication and token refresh, the request
dispatch retry logic for 401/429, pagination aggregation, the token-bucket
rate limiter, and the deployable-devices soft-degradation policy.

HTTP traffic is modelled by passing the server's responses explicitly:
each network call a function makes corresponds to one `Response` argument
(or, for pagination, a function from offset to page response).
-/

namespace FMC

/-- An HTTP header list; lookup mirrors `response.headers.get(key)`. -/
abbrev HeaderMap := List (String × String)

/-- `headers.get(key)` — first value for the key, if any. -/
def hget (h : HeaderMap) (k : String) : Option String :=
  (h.find? (fun p => p.1 == k)).map (fun p => p.2)

/-- `headers.get(key, default)`. -/
def hgetD (h : HeaderMap) (k d : String) : String :=
  (hget h k).getD d

/-- An HTTP response: status code, headers and raw body text
(`response.text`).  Paginated page bodies get their own structure below. -/
structure Response where
  status : Nat
  headers : HeaderMap
  body : String
  deriving Repr, DecidableEq

/-- Python truthiness of an optional string: `None` and `""` are falsy. -/
def strTruthy : Option String → Bool
  | none => false
  | some s => !s.isEmpty

/-- Errors the client code can raise. -/
inductive PyError where
  /-- `RuntimeError("Client not initialized. Call connect() first.")` -/
  | runtimeError
  /-- `RuntimeError(f"FMC authentication failed: \x7bstatus\x7d")` — the
  message interpolates only `response.status_code`; `response.text` is
  passed to `logger.error` but does not reach the raised error. -/
  | authFailed (status : Nat)
  /-- `ValueError` from `int()` on a non-integer string. -/
  | valueError (s : String)
  /-- `httpx.HTTPStatusError` raised by `response.raise_for_status()`. -/
  | httpStatusError (status : Nat)
  deriving Repr, DecidableEq

/-- Model of Python `int(s)` on strings: strip surrounding whitespace, an
optional sign, then a nonempty run of decimal digits; anything else raises
`ValueError` (carrying the offending string). -/
def pyIntDigits : List Char → Option Nat
  | [] => none
  | cs =>
    if cs.all Char.isDigit then
      some (cs.foldl (fun acc c => acc * 10 + (c.toNat - 48)) 0)
    else none

/-- ASCII whitespace stripped by Python `int()` before parsing. -/
def isPySpace (c : Char) : Bool :=
  c = ' ' || c = '\t' || c = '\n' || c = '\r'

/-- Strip leading and trailing whitespace from a character list. -/
def stripSpaces (cs : List Char) : List Char :=
  ((cs.dropWhile isPySpace).reverse.dropWhile isPySpace).reverse

/-- Python `int(s)`: `.ok n` on a well-formed integer literal, `.error s`
(a `ValueError`) otherwise. -/
def pyInt (s : String) : Except String Int :=
  match stripSpaces s.toList with
  | '-' :: rest =>
    match pyIntDigits rest with
    | some n => .ok (-(n : Int))
    | none => .error s
  | '+' :: rest =>
    match pyIntDigits rest with
    | some n => .ok (n : Int)
    | none => .error s
  | cs =>
    match pyIntDigits cs with
    | some n => .ok (n : Int)
    | none => .error s

/-- `response.raise_for_status()`: error on any non-2xx status. -/
def raiseForStatus (r : Response) : Except PyError Response :=
  if 200 ≤ r.status ∧ r.status < 300 then .ok r
  else .error (.httpStatusError r.status)

/-- The mutable credential state of `FMCClient`: the HTTP session handle
(`_client`, tracked as present/absent), `_access_token`, `_refresh_token`,
`_domain_uuid`, and `_refresh_count`. -/
structure ClientState where
  hasClient : Bool
  accessToken : Option String
  refreshToken : Option String
  domainUuid : Option String
  refreshCount : Nat
  deriving Repr, DecidableEq

/-- `_max_refreshes` (3). -/
def maxRefreshes : Nat := 3

/-- `FMCClient.__init__`: tokens empty, refresh counter 0, `_domain_uuid`
seeded from `settings.fmc_domain_uuid`, no HTTP session yet. -/
def initState (cfgDomainUuid : Option String) : ClientState :=
  { hasClient := false
    accessToken := none
    refreshToken := none
    domainUuid := cfgDomainUuid
    refreshCount := 0 }

/-- The well-known default global domain GUID. -/
def defaultDomainUuid : String := "e276abec-e0f2-11e3-8169-6d9ed49b625f"

/-- The `domain_uuid` property: `self._domain_uuid or "e276abec-…"`
(Python `or`, so `None` and `""` both fall back to the default). -/
def ClientState.domain_uuid (st : ClientState) : String :=
  match st.domainUuid with
  | none => defaultDomainUuid
  | some s => if s.isEmpty then defaultDomainUuid else s

/-- `FMCClient.close()`: if a session exists, close it and clear the access
and refresh tokens; otherwise do nothing.  (`_refresh_count` and
`_domain_uuid` are not touched.) -/
def close (st : ClientState) : ClientState :=
  if st.hasClient then
    { st with hasClient := false, accessToken := none, refreshToken := none }
  else st

/-- `FMCClient._authenticate()`, applied to the server's response to the
`generatetoken` POST.  Raises if the session is missing; raises
`authFailed` on any non-204 status; on 204 stores both token headers
(absent headers store `None`), resets the refresh counter, and discovers
`DOMAIN_UUID` from the headers when `_domain_uuid` is falsy. -/
def authenticate (st : ClientState) (r : Response) : Except PyError ClientState :=
  if !st.hasClient then .error .runtimeError
  else if r.status ≠ 204 then .error (.authFailed r.status)
  else
    let st1 : ClientState :=
      { st with
        accessToken := hget r.headers "X-auth-access-token"
        refreshToken := hget r.headers "X-auth-refresh-token"
        refreshCount := 0 }
    let st2 : ClientState :=
      if !strTruthy st1.domainUuid then
        match hget r.headers "DOMAIN_UUID" with
        | some d => if d.isEmpty then st1 else { st1 with domainUuid := some d }
        | none => st1
      else st1
    .ok st2

/-- Outcome of `FMCClient._refresh_auth_token()`: the returned boolean, the
updated state, whether a POST to the refresh endpoint was issued, and
whether a full `_authenticate` ran. -/
structure RefreshResult where
  ok : Bool
  state : ClientState
  refreshCalled : Bool
  reauthed : Bool
  deriving Repr, DecidableEq

/-- `FMCClient._refresh_auth_token()`.  `refreshR` is the outcome of the
POST to the refresh endpoint (`.error ()` models an exception during the
call, caught by the `except` block); `authR` is the response the
`generatetoken` endpoint would give if `_authenticate` runs.
Returns `False` without any call when the session or refresh token is
missing; re-authenticates (without calling the refresh endpoint) once the
refresh counter has reached the ceiling; on a 204 refresh replaces both
tokens and increments the counter; on any other status or an exception
falls back to re-authentication. -/
def refreshAuthToken (st : ClientState) (refreshR : Except Unit Response)
    (authR : Response) : Except PyError RefreshResult :=
  if !st.hasClient || !strTruthy st.refreshToken then
    .ok ⟨false, st, false, false⟩
  else if maxRefreshes ≤ st.refreshCount then
    (authenticate st authR).map (fun st1 => ⟨true, st1, false, true⟩)
  else
    match refreshR with
    | .ok r =>
      if r.status = 204 then
        .ok ⟨true,
          { st with
            accessToken := hget r.headers "X-auth-access-token"
            refreshToken := hget r.headers "X-auth-refresh-token"
            refreshCount := st.refreshCount + 1 },
          true, false⟩
      else
        (authenticate st authR).map (fun st1 => ⟨true, st1, true, true⟩)
    | .error _ =>
      (authenticate st authR).map (fun st1 => ⟨true, st1, true, true⟩)

/-- Observable outcome of `FMCClient._request`: the response handed back to
the caller, the credential state afterwards, how many times the request
endpoint was hit, the `asyncio.sleep` durations from the 429 branch, the
access token attached to each attempt, and whether `_refresh_auth_token`
was invoked. -/
structure ReqResult where
  response : Response
  state : ClientState
  attempts : Nat
  sleeps : List Int
  tokensUsed : List (Option String)
  refreshAttempted : Bool
  deriving Repr, DecidableEq

/-- `FMCClient._request(method, path)`.  `r1` is the server's response to
the first attempt; `r2` answers the retry after a 401; `r3` answers the
retry after a 429; `refreshR`/`authR` feed `_refresh_auth_token` if it
runs.  The 429 check applies to the current response, i.e. to `r2` when a
401 retry already happened. -/
def request (st : ClientState) (r1 : Response) (refreshR : Except Unit Response)
    (authR : Response) (r2 : Response) (r3 : Response) : Except PyError ReqResult :=
  if !st.hasClient then .error .runtimeError
  else
    let afterAuth : Except PyError (ClientState × Response × Nat × List (Option String) × Bool) :=
      if r1.status = 401 then
        (refreshAuthToken st refreshR authR).map
          (fun res => (res.state, r2, 2, [st.accessToken, res.state.accessToken], true))
      else
        .ok (st, r1, 1, [st.accessToken], false)
    match afterAuth with
    | .error e => .error e
    | .ok (st1, resp, n, toks, refr) =>
      if resp.status = 429 then
        match pyInt (hgetD resp.headers "Retry-After" "60") with
        | .error s => .error (.valueError s)
        | .ok secs =>
          .ok ⟨r3, st1, n + 1, [secs], toks ++ [st1.accessToken], refr⟩
      else
        .ok ⟨resp, st1, n, [], toks, refr⟩

/-! ### Pagination (`get_all_items`) -/

/-- An item record; its fields do not matter to the claims. -/
abbrev Item := String

/-- The `paging` envelope of a page body: its `count` field, if present. -/
structure PagingEnv where
  count : Option Int
  deriving Repr, DecidableEq

/-- A paginated response: HTTP status plus the JSON body's `items` list and
optional `paging` envelope. -/
structure Page where
  status : Nat
  items : List Item
  paging : Option PagingEnv
  deriving Repr, DecidableEq

/-- `data.get("paging", \x7b\x7d).get("count", 0)`. -/
def pageCount (p : Page) : Int :=
  match p.paging with
  | some env => env.count.getD 0
  | none => 0

/-- The fixed page size used by `get_all_items`. -/
def pageLimit : Nat := 1000

/-- The `while True` loop body of `get_all_items`, with explicit fuel.
`server` maps a requested offset to the page the server returns.  The
result is `none` when the fuel runs out (the loop would still be running),
otherwise the accumulated items together with the number of page requests
issued, or the error raised. -/
def getAllItemsAux (server : Nat → Page) :
    Nat → Nat → List Item → Nat → Option (Except PyError (List Item × Nat))
  | 0, _, _, _ => none
  | fuel + 1, offset, acc, reqs =>
    let p := server offset
    if 200 ≤ p.status ∧ p.status < 300 then
      if p.items.isEmpty then some (.ok (acc, reqs + 1))
      else
        let acc1 := acc ++ p.items
        if pageCount p ≤ (offset : Int) + (pageLimit : Int) then
          some (.ok (acc1, reqs + 1))
        else getAllItemsAux server fuel (offset + pageLimit) acc1 (reqs + 1)
    else some (.error (.httpStatusError p.status))

/-- `FMCClient.get_all_items(endpoint)`: offset/limit pagination from
offset 0 with page size 1000. -/
def get_all_items (server : Nat → Page) (fuel : Nat) :
    Option (Except PyError (List Item × Nat)) :=
  getAllItemsAux server fuel 0 [] 0

/-- `FMCClient.get_devices()` (and the other plain convenience readers):
a direct call to `get_all_items` with no error handling of its own. -/
def get_devices (server : Nat → Page) (fuel : Nat) :
    Option (Except PyError (List Item)) :=
  (get_all_items server fuel).map
    (fun res =>
      match res with
      | .ok (items, _) => .ok items
      | .error e => .error e)

/-- `FMCClient.get_deployable_devices()`: `get_all_items` wrapped in a
handler that turns an `HTTPStatusError` with status 403 into an empty
list and re-raises every other error. -/
def get_deployable_devices (server : Nat → Page) (fuel : Nat) :
    Option (Except PyError (List Item)) :=
  (get_all_items server fuel).map
    (fun res =>
      match res with
      | .ok (items, _) => .ok items
      | .error (.httpStatusError s) =>
        if s = 403 then .ok [] else .error (.httpStatusError s)
      | .error e => .error e)

/-! ### RateLimiter -/

/-- The token-bucket rate limiter: `capacity`, `refill_rate` and the
current `tokens` count.  Python floats are modelled as rationals; the
`last_refill` timestamp is replaced by passing each refill the elapsed
time directly. -/
structure RateLimiter where
  capacity : ℚ
  refillRate : ℚ
  tokens : ℚ
  deriving Repr, DecidableEq

/-- `RateLimiter.__init__`: the bucket starts full. -/
def RateLimiter.init (capacity refillRate : ℚ) : RateLimiter :=
  ⟨capacity, refillRate, capacity⟩

/-- `RateLimiter._refill()`: add `elapsed * refill_rate` tokens, capped at
`capacity`. -/
def RateLimiter.refill (rl : RateLimiter) (elapsed : ℚ) : RateLimiter :=
  { rl with tokens := min rl.capacity (rl.tokens + elapsed * rl.refillRate) }

/-- The wait-and-refill loop of `RateLimiter.acquire()` after the initial
refill: while `tokens < 1`, sleep and refill (each list element is the
elapsed time observed by one loop iteration); once `tokens ≥ 1`, decrement
by one.  `none` means the supplied schedule ended with the loop still
waiting. -/
def RateLimiter.acquireLoop (rl : RateLimiter) : List ℚ → Option RateLimiter
  | [] =>
    if 1 ≤ rl.tokens then some { rl with tokens := rl.tokens - 1 } else none
  | e :: es =>
    if 1 ≤ rl.tokens then some { rl with tokens := rl.tokens - 1 }
    else (rl.refill e).acquireLoop es

/-- `RateLimiter.acquire()`: one unconditional refill (elapsed `e0`), then
the wait loop with the elapsed times `es`. -/
def RateLimiter.acquire (rl : RateLimiter) (e0 : ℚ) (es : List ℚ) :
    Option RateLimiter :=
  (rl.refill e0).acquireLoop es

/-! ### Concrete fixtures used by witnesses and counterexamples -/

/-- A connected client with both tokens set, no domain, counter 0. -/
def stConn : ClientState :=
  ⟨true, some "T0", some "R0", none, 0⟩

/-- A plain 200 response with no headers and an empty body. -/
def rOk : Response := ⟨200, [], ""⟩

end FMC

namespace FMC

/-- Shared helper: what a successful `_authenticate` does to the state —
tokens come from the response headers, the refresh counter resets to 0,
the session flag is untouched, and a truthy pre-existing `_domain_uuid`
is never overwritten by discovery. -/
theorem authenticate_ok_fields (st : ClientState) (r : Response) (st1 : ClientState)
    (hok : authenticate st r = .ok st1) :
    st1.hasClient = st.hasClient ∧
    st1.accessToken = hget r.headers "X-auth-access-token" ∧
    st1.refreshToken = hget r.headers "X-auth-refresh-token" ∧
    st1.refreshCount = 0 ∧
    (strTruthy st.domainUuid = true → st1.domainUuid = st.domainUuid) := by
  by_cases h : st.hasClient
  case neg => simp [authenticate, h] at hok
  case pos =>
    by_cases h204 : r.status = 204
    case neg => simp [authenticate, h, h204] at hok
    case pos =>
      simp only [authenticate, h, h204] at hok
      by_cases hd : strTruthy st.domainUuid
      · simp [hd] at hok
        simp [← hok, h]
      · cases hdm : hget r.headers "DOMAIN_UUID" with
        | none =>
          simp [hd, hdm] at hok
          simp [← hok, h, hd]
        | some d =>
          by_cases hde : d.isEmpty
          · simp [hd, hdm, hde] at hok
            simp [← hok, h, hd]
          · simp [hd, hdm, hde] at hok
            simp [← hok, h, hd]

/-! ### C2 — close() -/

/-- C2 counterexample: closing a connected client whose refresh counter is
2 and whose domain identifier is set leaves both the counter and the
domain identifier in place, so not all session credential state is
cleared by `close()`, contrary to the claim. -/
theorem C2_counterexample :
    (close ⟨true, some "T", some "R", some "d-disc", 2⟩).refreshCount = 2 ∧
    (close ⟨true, some "T", some "R", some "d-disc", 2⟩).domainUuid = some "d-disc" := by
  constructor <;> rfl

/-- C2 amended: after `close()` on a connected client the session handle,
access token and refresh token are cleared, while the refresh counter and
domain identifier are retained; calling `close()` again is a no-op, so
repeated calls produce no error. -/
theorem C2_close_clears_tokens (st : ClientState) (h : st.hasClient = true) :
    close st
      = { st with hasClient := false, accessToken := none, refreshToken := none } ∧
    (close st).refreshCount = st.refreshCount ∧
    (close st).domainUuid = st.domainUuid ∧
    close (close st) = close st := by
  have hcl : close st
      = { st with hasClient := false, accessToken := none, refreshToken := none } := by
    simp [close, h]
  refine ⟨hcl, ?_, ?_, ?_⟩
  · rw [hcl]
  · rw [hcl]
  · rw [hcl]; simp [close]

/-- Witness for C2: the amended theorem applied to a concrete state. -/
theorem C2_witness :
    close ⟨true, some "T", some "R", some "d", 1⟩
      = ⟨false, none, none, some "d", 1⟩ :=
  (C2_close_clears_tokens ⟨true, some "T", some "R", some "d", 1⟩ rfl).1

/-! ### C3 — authentication success condition -/

/-- C3 counterexample, two independent failures of the claim.  First, a 204
token-generation response carrying neither required header still makes
`_authenticate` succeed (storing missing tokens), so success is not
conditional on the two headers being present.  Second, a non-204 response
whose body is "server exploded" raises `RuntimeError(f"FMC authentication
failed: 500")`: the error carries the status code only — the response body
is logged, never placed in the raised error — contrary to the claim that
the fatal error carries the status code and response body. -/
theorem C3_counterexample :
    authenticate stConn ⟨204, [], ""⟩ = .ok ⟨true, none, none, none, 0⟩ ∧
    hget ([] : HeaderMap) "X-auth-access-token" = none ∧
    authenticate stConn ⟨500, [], "server exploded"⟩ = .error (.authFailed 500) := by
  refine ⟨rfl, rfl, rfl⟩

/-- C3 amended: authentication succeeds iff the token-generation response
is HTTP 204; on success the access and refresh tokens are whatever the
two headers hold (possibly absent) and the refresh counter is 0; any
non-204 status is a fatal authentication error carrying the status code
(the response body is logged but not carried in the error). -/
theorem C3_auth_succeeds_iff_204 (st : ClientState) (r : Response)
    (h : st.hasClient = true) :
    ((authenticate st r).toOption.isSome = true ↔ r.status = 204) ∧
    (r.status ≠ 204 → authenticate st r = .error (.authFailed r.status)) ∧
    (∀ st1, authenticate st r = .ok st1 →
      st1.accessToken = hget r.headers "X-auth-access-token" ∧
      st1.refreshToken = hget r.headers "X-auth-refresh-token" ∧
      st1.refreshCount = 0) := by
  by_cases h204 : r.status = 204
  · refine ⟨?_, fun hne => absurd h204 hne, ?_⟩
    · simp only [authenticate, h, h204]
      simp [Except.toOption]
    · intro st1 hst1
      simp only [authenticate, h, h204] at hst1
      by_cases hd : strTruthy st.domainUuid
      · simp [hd] at hst1
        simp [← hst1]
      · cases hdm : hget r.headers "DOMAIN_UUID" with
        | none =>
          simp [hd, hdm] at hst1
          simp [← hst1]
        | some d =>
          by_cases hde : d.isEmpty
          · simp [hd, hdm, hde] at hst1
            simp [← hst1]
          · simp [hd, hdm, hde] at hst1
            simp [← hst1]
  · refine ⟨?_, fun _ => ?_, fun st1 hst1 => ?_⟩
    · simp [authenticate, h, h204, Except.toOption]
    · simp [authenticate, h, h204]
    · simp [authenticate, h, h204] at hst1

/-- Witness for C3: the amended theorem applied to a concrete state and a
concrete failing (401) response. -/
theorem C3_witness :
    authenticate stConn ⟨401, [], ""⟩ = .error (.authFailed 401) :=
  (C3_auth_succeeds_iff_204 stConn ⟨401, [], ""⟩ rfl).2.1 (by decide)

/-! ### C1 — 429 handling -/

/-- `int("60") = 60`. -/
theorem pyInt_sixty : pyInt "60" = .ok 60 := rfl

/-- C1 counterexample: a 429 response whose `Retry-After` header is present
but unparseable ("abc") makes `int()` raise a `ValueError` that propagates
to the caller — no 60-second default, no sleep, and no retry — contrary to
the claim that an unparseable header falls back to 60 seconds and the call
is retried. -/
theorem C1_counterexample :
    request stConn ⟨429, [("Retry-After", "abc")], ""⟩ (.ok rOk) rOk rOk rOk
      = .error (.valueError "abc") := rfl

/-- C1 amended: whenever the current — possibly already once-retried —
response has status 429, the client sleeps for the `Retry-After` value
parsed as integer seconds, defaulting to 60 only when the header is
absent, then retries exactly once and returns whatever the retry yields
(a second 429 propagates as an HTTP error); a present but unparseable
header instead raises a `ValueError` that propagates with no sleep and no
retry.  The first three conjuncts cover a 429 on the first attempt; the
fourth covers the cascade entry where a 401 first response was already
retried once (after its single refresh) and that retried response is the
429. -/
theorem C1_429_single_retry (st : ClientState) (r1 : Response)
    (refreshR : Except Unit Response) (authR r2 r3 : Response)
    (res : RefreshResult) (h : st.hasClient = true) :
    (r1.status = 429 → hget r1.headers "Retry-After" = none →
      request st r1 refreshR authR r2 r3
        = .ok ⟨r3, st, 2, [60], [st.accessToken, st.accessToken], false⟩) ∧
    (r1.status = 429 → ∀ v n, hget r1.headers "Retry-After" = some v →
      pyInt v = .ok n →
      request st r1 refreshR authR r2 r3
        = .ok ⟨r3, st, 2, [n], [st.accessToken, st.accessToken], false⟩) ∧
    (r1.status = 429 → ∀ v s, hget r1.headers "Retry-After" = some v →
      pyInt v = .error s →
      request st r1 refreshR authR r2 r3 = .error (.valueError s)) ∧
    (r1.status = 401 → r2.status = 429 →
      refreshAuthToken st refreshR authR = .ok res →
      (hget r2.headers "Retry-After" = none →
        request st r1 refreshR authR r2 r3
          = .ok ⟨r3, res.state, 3, [60],
                 [st.accessToken, res.state.accessToken, res.state.accessToken],
                 true⟩) ∧
      (∀ v n, hget r2.headers "Retry-After" = some v → pyInt v = .ok n →
        request st r1 refreshR authR r2 r3
          = .ok ⟨r3, res.state, 3, [n],
                 [st.accessToken, res.state.accessToken, res.state.accessToken],
                 true⟩) ∧
      (∀ v s, hget r2.headers "Retry-After" = some v → pyInt v = .error s →
        request st r1 refreshR authR r2 r3 = .error (.valueError s))) ∧
    (r3.status = 429 → raiseForStatus r3 = .error (.httpStatusError 429)) := by
  refine ⟨fun h1 ha => ?_, fun h1 v n ha hv => ?_, fun h1 v s ha hv => ?_,
          fun h1 h2 href => ⟨fun ha => ?_, fun v n ha hv => ?_, fun v s ha hv => ?_⟩,
          fun h429 => ?_⟩
  · simp [request, h, h1, hgetD, ha, pyInt_sixty]
  · simp [request, h, h1, hgetD, ha, hv]
  · simp [request, h, h1, hgetD, ha, hv]
  · simp [request, h, h1, h2, href, Except.map, hgetD, ha, pyInt_sixty]
  · simp [request, h, h1, h2, href, Except.map, hgetD, ha, hv]
  · simp [request, h, h1, h2, href, Except.map, hgetD, ha, hv]
  · simp [raiseForStatus, h429]

/-- Witness for C1: the amended theorem on a concrete first-attempt 429
exchange with the header absent; the retry response is itself a 429 and is
returned as-is. -/
theorem C1_witness :
    request stConn ⟨429, [], ""⟩ (.ok rOk) rOk rOk ⟨429, [], ""⟩
      = .ok ⟨⟨429, [], ""⟩, stConn, 2, [60], [some "T0", some "T0"], false⟩ :=
  (C1_429_single_retry stConn ⟨429, [], ""⟩ (.ok rOk) rOk rOk ⟨429, [], ""⟩
      ⟨false, stConn, false, false⟩ rfl).1 rfl rfl

/-! ### C6 — 401 handling -/

/-- C6: every request whose first response is 401 triggers exactly one
`_refresh_auth_token` invocation and exactly one retry of the HTTP call,
carrying the post-refresh access token.  When the retried response is not
rate-limited it is returned as-is — even another 401, which surfaces as an
`HTTPStatusError` under `raise_for_status` with no further refresh or
retry.  When the retried response is a 429, the separate single-shot
rate-limit policy runs once on it (one backoff sleep and one further call,
or a `ValueError` on an unparseable header) — still with no second
refresh and no second 401-retry. -/
theorem C6_401_single_refresh_retry (st : ClientState) (r1 : Response)
    (refreshR : Except Unit Response) (authR r2 r3 : Response)
    (res : RefreshResult) (h : st.hasClient = true) (h1 : r1.status = 401)
    (href : refreshAuthToken st refreshR authR = .ok res) :
    (r2.status ≠ 429 →
      request st r1 refreshR authR r2 r3
        = .ok ⟨r2, res.state, 2, [], [st.accessToken, res.state.accessToken],
               true⟩) ∧
    (r2.status = 401 → raiseForStatus r2 = .error (.httpStatusError 401)) ∧
    (r2.status = 429 →
      (hget r2.headers "Retry-After" = none →
        request st r1 refreshR authR r2 r3
          = .ok ⟨r3, res.state, 3, [60],
                 [st.accessToken, res.state.accessToken, res.state.accessToken],
                 true⟩) ∧
      (∀ v n, hget r2.headers "Retry-After" = some v → pyInt v = .ok n →
        request st r1 refreshR authR r2 r3
          = .ok ⟨r3, res.state, 3, [n],
                 [st.accessToken, res.state.accessToken, res.state.accessToken],
                 true⟩) ∧
      (∀ v s, hget r2.headers "Retry-After" = some v → pyInt v = .error s →
        request st r1 refreshR authR r2 r3 = .error (.valueError s))) := by
  refine ⟨fun hr2 => ?_, fun h401 => ?_,
          fun h429 => ⟨fun ha => ?_, fun v n ha hv => ?_, fun v s ha hv => ?_⟩⟩
  · simp [request, h, h1, href, hr2, Except.map]
  · simp [raiseForStatus, h401]
  · simp [request, h, h1, href, h429, Except.map, hgetD, ha, pyInt_sixty]
  · simp [request, h, h1, href, h429, Except.map, hgetD, ha, hv]
  · simp [request, h, h1, href, h429, Except.map, hgetD, ha, hv]

/-- Witness for C6: a concrete 401 exchange where the refresh succeeds with
new tokens and the retried call is itself rate-limited with no
`Retry-After` header; the refresh ran exactly once and the single 429
backoff (60s) and call follow, all carrying the new token. -/
theorem C6_witness :
    request stConn ⟨401, [], ""⟩
        (.ok ⟨204, [("X-auth-access-token", "T1"), ("X-auth-refresh-token", "R1")],
              ""⟩)
        rOk ⟨429, [], ""⟩ rOk
      = .ok ⟨rOk, ⟨true, some "T1", some "R1", none, 1⟩, 3, [60],
             [some "T0", some "T1", some "T1"], true⟩ :=
  ((C6_401_single_refresh_retry stConn ⟨401, [], ""⟩
      (.ok ⟨204, [("X-auth-access-token", "T1"), ("X-auth-refresh-token", "R1")],
            ""⟩)
      rOk ⟨429, [], ""⟩ rOk
      ⟨true, ⟨true, some "T1", some "R1", none, 1⟩, true, false⟩
      rfl rfl rfl).2.2 rfl).1 rfl

/-! ### C4 — refresh counter -/

/-- C4: every successful full re-authentication resets the refresh counter
to 0; a successful (204) refresh below the ceiling replaces both tokens
and increments the counter by exactly 1; once the counter has reached
`_max_refreshes` (= 3), the next refresh attempt issues no refresh request
and instead performs a full re-authentication. -/
theorem C4_refresh_counter (st : ClientState) (r authR : Response)
    (refreshR : Except Unit Response) (h : st.hasClient = true)
    (htok : strTruthy st.refreshToken = true) :
    (∀ st1, authenticate st r = .ok st1 → st1.refreshCount = 0) ∧
    (∀ rr : Response, st.refreshCount < maxRefreshes → rr.status = 204 →
      refreshAuthToken st (.ok rr) authR
        = .ok ⟨true,
            { st with
              accessToken := hget rr.headers "X-auth-access-token"
              refreshToken := hget rr.headers "X-auth-refresh-token"
              refreshCount := st.refreshCount + 1 },
            true, false⟩) ∧
    (maxRefreshes ≤ st.refreshCount →
      refreshAuthToken st refreshR authR
        = (authenticate st authR).map (fun st1 => ⟨true, st1, false, true⟩)) ∧
    maxRefreshes = 3 := by
  refine ⟨fun st1 h1 => (authenticate_ok_fields st r st1 h1).2.2.2.1,
          fun rr hcnt h204 => ?_, fun hge => ?_, rfl⟩
  · have hlt : ¬ maxRefreshes ≤ st.refreshCount := Nat.not_le.mpr hcnt
    simp [refreshAuthToken, h, htok, hlt, h204]
  · simp [refreshAuthToken, h, htok, hge]

/-- Witness for C4: a client whose counter sits at the ceiling (3); the
next refresh attempt re-authenticates (no refresh call) and the counter
comes back as 0 with the re-issued tokens. -/
theorem C4_witness :
    refreshAuthToken ⟨true, some "T0", some "R0", none, 3⟩ (.ok rOk)
        ⟨204, [("X-auth-access-token", "A2"), ("X-auth-refresh-token", "R2")], ""⟩
      = .ok ⟨true, ⟨true, some "A2", some "R2", none, 0⟩, false, true⟩ := by
  rw [(C4_refresh_counter ⟨true, some "T0", some "R0", none, 3⟩ rOk
        ⟨204, [("X-auth-access-token", "A2"), ("X-auth-refresh-token", "R2")], ""⟩
        (.ok rOk) rfl rfl).2.2.1 (by decide)]
  rfl

/-! ### C5 — pagination termination -/

/-- A server holding exactly two items, both returned in the first page,
with declared total count 2. -/
def twoItemServer : Nat → Page := fun _ => ⟨200, ["a", "b"], some ⟨some 2⟩⟩

/-- C5: on a successful page fetch the loop stops and returns the
accumulator exactly when the page's item list is empty (regardless of the
declared count) or when `offset + limit ≥ total_count`; otherwise it
continues with the advanced offset.  In particular, for total count 2 with
both items in the first page, `get_all_items` returns exactly those 2
items after a single page request. -/
theorem C5_pagination_termination (server : Nat → Page) (fuel offset reqs : Nat)
    (acc : List Item)
    (hok : 200 ≤ (server offset).status ∧ (server offset).status < 300) :
    ((server offset).items = [] →
      getAllItemsAux server (fuel + 1) offset acc reqs = some (.ok (acc, reqs + 1))) ∧
    ((server offset).items ≠ [] →
      pageCount (server offset) ≤ (offset : Int) + (pageLimit : Int) →
      getAllItemsAux server (fuel + 1) offset acc reqs
        = some (.ok (acc ++ (server offset).items, reqs + 1))) ∧
    ((server offset).items ≠ [] →
      (offset : Int) + (pageLimit : Int) < pageCount (server offset) →
      getAllItemsAux server (fuel + 1) offset acc reqs
        = getAllItemsAux server fuel (offset + pageLimit)
            (acc ++ (server offset).items) (reqs + 1)) ∧
    get_all_items twoItemServer 5 = some (.ok (["a", "b"], 1)) := by
  refine ⟨fun he => ?_, fun hne hle => ?_, fun hne hgt => ?_, rfl⟩
  · simp [getAllItemsAux, hok, he]
  · simp [getAllItemsAux, hok, List.isEmpty_iff, hne, hle]
  · have hnle : ¬ pageCount (server offset) ≤ (offset : Int) + (pageLimit : Int) :=
      not_le.mpr hgt
    simp [getAllItemsAux, hok, List.isEmpty_iff, hne, hnle]

/-- Witness for C5: the theorem applied to the two-item server at offset 0
— the count check fires on the first page, so the loop stops with both
items after one request. -/
theorem C5_witness :
    getAllItemsAux twoItemServer 5 0 [] 0 = some (.ok (["a", "b"], 1)) :=
  (C5_pagination_termination twoItemServer 4 0 0 [] (by decide)).2.1
    (by decide) (by decide)

/-! ### C7 — rate limiter invariant -/

/-- Shared helper: the wait-and-decrement loop of `acquire`, run from any
state within `[0, capacity]` under nonnegative rate and elapsed times,
ends (when it ends) with a token count in `[0, capacity)` and an unchanged
capacity. -/
theorem acquireLoop_bounds (es : List ℚ) :
    ∀ rl rl1 : RateLimiter, 0 ≤ rl.capacity → 0 ≤ rl.refillRate →
      0 ≤ rl.tokens → rl.tokens ≤ rl.capacity → (∀ x ∈ es, 0 ≤ x) →
      rl.acquireLoop es = some rl1 →
      0 ≤ rl1.tokens ∧ rl1.tokens < rl.capacity ∧ rl1.capacity = rl.capacity := by
  induction es with
  | nil =>
    intro rl rl1 _ _ _ hcap _ hacq
    by_cases h1 : 1 ≤ rl.tokens
    · simp [RateLimiter.acquireLoop, h1] at hacq
      refine ⟨?_, ?_, ?_⟩ <;> simp [← hacq]
      · linarith
      · linarith
    · simp [RateLimiter.acquireLoop, h1] at hacq
  | cons e es ih =>
    intro rl rl1 hc hr h0 _hcap hes hacq
    by_cases h1 : 1 ≤ rl.tokens
    · simp [RateLimiter.acquireLoop, h1] at hacq
      refine ⟨?_, ?_, ?_⟩ <;> simp [← hacq]
      · linarith
      · linarith
    · simp [RateLimiter.acquireLoop, h1] at hacq
      have h0e : 0 ≤ e := hes e (List.mem_cons_self e es)
      have hre : 0 ≤ (rl.refill e).tokens := by
        simp [RateLimiter.refill]
        refine ⟨?_, ?_⟩ <;> try exact hc
        · exact add_nonneg h0 (mul_nonneg h0e hr)
      have hrc : (rl.refill e).tokens ≤ (rl.refill e).capacity := by
        simp [RateLimiter.refill]
      have := ih (rl.refill e) rl1 hc hr hre hrc
        (fun x hx => hes x (List.mem_cons_of_mem e hx)) hacq
      exact this

/-- C7: starting from any `RateLimiter` state whose token count lies in
`[0, capacity]` (the initial state has `tokens = capacity`), a refill with
nonnegative elapsed time keeps the count in `[0, capacity]` — so the count
never exceeds capacity at any observation point — and whenever `acquire`
completes, the count immediately after its decrement lies in the half-open
interval `[0, capacity)`: the acquire consumed one available token and
never drove the count negative. -/
theorem C7_rate_limiter_invariant (rl rl1 : RateLimiter) (e e0 : ℚ) (es : List ℚ)
    (hc : 0 ≤ rl.capacity) (hr : 0 ≤ rl.refillRate)
    (h0 : 0 ≤ rl.tokens) (_hcap : rl.tokens ≤ rl.capacity) :
    (RateLimiter.init rl.capacity rl.refillRate).tokens ≤ rl.capacity ∧
    (0 ≤ e → 0 ≤ (rl.refill e).tokens ∧ (rl.refill e).tokens ≤ rl.capacity) ∧
    (0 ≤ e0 → (∀ x ∈ es, 0 ≤ x) → rl.acquire e0 es = some rl1 →
      0 ≤ rl1.tokens ∧ rl1.tokens < rl.capacity) := by
  refine ⟨le_refl _, fun h0e => ⟨?_, ?_⟩, fun h0e hes hacq => ?_⟩
  · simp [RateLimiter.refill]
    refine ⟨?_, ?_⟩ <;> try exact hc
    · exact add_nonneg h0 (mul_nonneg h0e hr)
  · simp [RateLimiter.refill]
  · have hre : 0 ≤ (rl.refill e0).tokens := by
      simp [RateLimiter.refill]
      refine ⟨?_, ?_⟩ <;> try exact hc
      · exact add_nonneg h0 (mul_nonneg h0e hr)
    have hrc : (rl.refill e0).tokens ≤ (rl.refill e0).capacity := by
      simp [RateLimiter.refill]
    have hb := acquireLoop_bounds es (rl.refill e0) rl1 hc hr hre hrc hes hacq
    exact ⟨hb.1, hb.2.1⟩

/-- Witness for C7: a full bucket of capacity 2 and rate 1; one acquire
with no elapsed time leaves 1 token, inside `[0, 2)`. -/
theorem C7_witness :
    (0 : ℚ) ≤ (⟨2, 1, 1⟩ : RateLimiter).tokens ∧
    (⟨2, 1, 1⟩ : RateLimiter).tokens < (⟨2, 1, 2⟩ : RateLimiter).capacity :=
  (C7_rate_limiter_invariant ⟨2, 1, 2⟩ ⟨2, 1, 1⟩ 0 0 []
      (by norm_num) (by norm_num) (by norm_num) (by norm_num)).2.2
    (le_refl 0) (by simp)
    (by norm_num [RateLimiter.acquire, RateLimiter.acquireLoop, RateLimiter.refill])

/-! ### C8 — deployable-devices 403 soft-degradation -/

/-- C8: when the underlying paginated fetch fails with an HTTP 403,
`get_deployable_devices` returns an empty list while the plain readers
(`get_devices`) propagate the same error; any non-403 HTTP error
propagates from `get_deployable_devices` as well. -/
theorem C8_deployable_403_soft (server : Nat → Page) (fuel : Nat) :
    (get_all_items server fuel = some (.error (.httpStatusError 403)) →
      get_deployable_devices server fuel = some (.ok []) ∧
      get_devices server fuel = some (.error (.httpStatusError 403))) ∧
    (∀ s, s ≠ 403 →
      get_all_items server fuel = some (.error (.httpStatusError s)) →
      get_deployable_devices server fuel = some (.error (.httpStatusError s))) := by
  constructor
  · intro hga
    constructor
    · simp [get_deployable_devices, hga]
    · simp [get_devices, hga]
  · intro s hs hga
    simp [get_deployable_devices, hga, hs]

/-- A server that answers every page request with 403 Forbidden. -/
def server403 : Nat → Page := fun _ => ⟨403, [], none⟩

/-- Witness for C8: against the 403-answering server the deployable-devices
reader yields an empty list where the plain reader fails. -/
theorem C8_witness :
    get_deployable_devices server403 1 = some (.ok []) ∧
    get_devices server403 1 = some (.error (.httpStatusError 403)) :=
  (C8_deployable_403_soft server403 1).1 rfl

/-! ### C9 — domain identifier resolution -/

/-- C9: `_domain_uuid` starts as the configured value; when it is truthy,
a successful authentication never overwrites it with a discovered header
value (configuration wins); when it is falsy (not configured, nothing
discovered), the `domain_uuid` property used to build every request path
yields the well-known default global GUID. -/
theorem C9_domain_resolution (st : ClientState) (cfg : Option String) :
    (initState cfg).domainUuid = cfg ∧
    (strTruthy st.domainUuid = false →
      st.domain_uuid = "e276abec-e0f2-11e3-8169-6d9ed49b625f") ∧
    (strTruthy st.domainUuid = true → ∀ r st1, authenticate st r = .ok st1 →
      st1.domainUuid = st.domainUuid ∧ st1.domain_uuid = st.domain_uuid) := by
  refine ⟨rfl, fun hfalsy => ?_, fun htruthy r st1 hok => ?_⟩
  · cases hdom : st.domainUuid with
    | none => simp [ClientState.domain_uuid, hdom, defaultDomainUuid]
    | some s =>
      rw [hdom] at hfalsy
      simp [strTruthy] at hfalsy
      simp [ClientState.domain_uuid, hdom, hfalsy, defaultDomainUuid]
  · have hd := (authenticate_ok_fields st r st1 hok).2.2.2.2 htruthy
    exact ⟨hd, by simp [ClientState.domain_uuid, hd]⟩

/-- Witness for C9: a client with a configured (truthy) domain identifier
authenticates against a response advertising `DOMAIN_UUID: disc`; the
configured value survives, and a falsy identifier falls back to the
default GUID. -/
theorem C9_witness :
    (initState (some "cfg-uuid")).domainUuid = some "cfg-uuid" ∧
    ClientState.domain_uuid ⟨false, none, none, none, 0⟩
      = "e276abec-e0f2-11e3-8169-6d9ed49b625f" ∧
    ClientState.domainUuid ⟨true, none, none, some "cfg-uuid", 0⟩
      = some "cfg-uuid" :=
  ⟨(C9_domain_resolution ⟨false, none, none, none, 0⟩ (some "cfg-uuid")).1,
   (C9_domain_resolution ⟨false, none, none, none, 0⟩ (some "cfg-uuid")).2.1 rfl,
   ((C9_domain_resolution ⟨true, some "T", some "R", some "cfg-uuid", 5⟩
        (some "cfg-uuid")).2.2 rfl
      ⟨204, [("DOMAIN_UUID", "disc")], ""⟩ ⟨true, none, none, some "cfg-uuid", 0⟩
      rfl).1⟩

/-! ### C10 — missing paging envelope stops after the first page -/

/-- C10: when the first page succeeds with a non-empty item list but its
body lacks a `paging` envelope or a `count` field, the total count is
taken as 0, the count check `offset + limit ≥ 0` holds at once, and
`get_all_items` returns exactly that first page's items after a single
request. -/
theorem C10_missing_paging_stops (server : Nat → Page) (fuel : Nat)
    (hok : 200 ≤ (server 0).status ∧ (server 0).status < 300)
    (hne : (server 0).items ≠ [])
    (hp : (server 0).paging = none ∨ (server 0).paging = some ⟨none⟩) :
    pageCount (server 0) = 0 ∧
    get_all_items server (fuel + 1) = some (.ok ((server 0).items, 1)) := by
  have hpc : pageCount (server 0) = 0 := by
    rcases hp with hp | hp <;> simp [pageCount, hp]
  refine ⟨hpc, ?_⟩
  simp [get_all_items, getAllItemsAux, hok, List.isEmpty_iff, hne, hpc, pageLimit]

/-- A server whose single page has one item and no paging envelope; more
items could exist at higher offsets but are never requested. -/
def noPagingServer : Nat → Page := fun _ => ⟨200, ["x"], none⟩

/-- Witness for C10: the no-envelope server yields only the first page's
item, in one request. -/
theorem C10_witness :
    get_all_items noPagingServer 1 = some (.ok (["x"], 1)) :=
  (C10_missing_paging_stops noPagingServer 0 (by decide) (by decide)
    (Or.inl rfl)).2

end FMC
